import Mathlib

set_option maxRecDepth 100000

/-!
Shallow embedding of the StellarPath Soroban contract
(`src/packages/contracts/src/{lib,types,validation,storage}.rs`).

Addresses are opaque, equality-comparable principals and are modelled as
natural numbers.  The ledger clock `env.ledger().timestamp()` is passed
explicitly as a `now : Nat` argument.  Contract storage (instance and
persistent maps, the reentrancy flag, the three id counters) is an explicit
`Storage` record threaded through every operation.  Fallible operations
return `Except ContractError α × Storage`, mirroring Rust's
`Result<_, ContractError>` together with the storage it leaves behind.
-/

namespace StellarDApp

abbrev Address := Nat

/-- Error enumeration from `types.rs` (`ContractError`). -/
inductive ContractError where
  | InsufficientBalance
  | InvalidAddress
  | Unauthorized
  | InvalidAmount
  | TransactionNotFound
  | EscrowNotFound
  | ConditionsNotMet
  | EscrowExpired
  | InvoiceNotFound
  | InvoiceAlreadyApproved
  | InvoiceExpired
  | InvalidSignature
  | ReentrancyDetected
deriving DecidableEq, Repr

/-- Status enumeration from `types.rs` (`TransactionStatus`). -/
inductive TransactionStatus where
  | Pending
  | Confirmed
  | Failed
  | Cancelled
deriving DecidableEq, Repr

/-- Enumeration from `types.rs` (`TransactionType`). -/
inductive TransactionType where
  | Basic
  | Escrow
  | P2P
  | Invoice
deriving DecidableEq, Repr

/-- Status enumeration from `types.rs` (`EscrowStatus`). -/
inductive EscrowStatus where
  | Active
  | ConditionsMet
  | Released
  | Refunded
  | Expired
deriving DecidableEq, Repr

/-- Status enumeration from `types.rs` (`InvoiceStatus`). -/
inductive InvoiceStatus where
  | Draft
  | Sent
  | Approved
  | Executed
  | Rejected
  | Expired
deriving DecidableEq, Repr

/-- Enumeration from `types.rs` (`ConditionType`). -/
inductive ConditionType where
  | TimeBased
  | OracleBased
  | ManualApproval
deriving DecidableEq, Repr

/-- Record from `types.rs` (`Transaction`). -/
structure Transaction where
  id : Nat
  transaction_type : TransactionType
  sender : Address
  recipient : Address
  amount : Int
  status : TransactionStatus
  timestamp : Nat
  metadata : String
deriving DecidableEq, Repr

/-- Record from `types.rs` (`Condition`). -/
structure Condition where
  condition_type : ConditionType
  parameters : String
  validator : Address
deriving DecidableEq, Repr

/-- Record from `types.rs` (`EscrowContract`); the Soroban `Vec<Condition>`
is modelled as a `List`. -/
structure EscrowContract where
  id : Nat
  sender : Address
  recipient : Address
  amount : Int
  conditions : List Condition
  status : EscrowStatus
  created_at : Nat
  expires_at : Nat
deriving DecidableEq, Repr

/-- Record from `types.rs` (`Invoice`). -/
structure Invoice where
  id : Nat
  creator : Address
  client : Address
  amount : Int
  description : String
  status : InvoiceStatus
  created_at : Nat
  due_date : Nat
  approved_at : Option Nat
deriving DecidableEq, Repr

/-- Record from `types.rs` (`TransactionResult`). -/
structure TransactionResult where
  transaction_id : Nat
  status : TransactionStatus
  tx_hash : String
deriving DecidableEq, Repr

/-- Record from `types.rs` (`EscrowResult`). -/
structure EscrowResult where
  escrow_id : Nat
  status : EscrowStatus
  tx_hash : Option String
deriving DecidableEq, Repr

/-- Record from `types.rs` (`InvoiceResult`). -/
structure InvoiceResult where
  invoice_id : Nat
  status : InvoiceStatus
  tx_hash : Option String
deriving DecidableEq, Repr

/-- Contract storage: the `reentry` instance flag, the admin entry, the three
per-kind counters (`tx_count`, `esc_count`, `inv_count`, absent = `none`), and
the three persistent record maps keyed by numeric id. -/
structure Storage where
  reentry : Bool
  admin : Option Address
  tx_count : Option Nat
  esc_count : Option Nat
  inv_count : Option Nat
  transactions : Nat → Option Transaction
  escrows : Nat → Option EscrowContract
  invoices : Nat → Option Invoice

/-- The maximum value of Rust's `i128`. -/
def i128_MAX : Int := 2 ^ 127 - 1

/-- From `validation.rs`: `validate_address` always succeeds. -/
def validate_address (_addr : Address) : Except ContractError Unit := .ok ()

/-- From `validation.rs`: `validate_amount` rejects `amount <= 0` and
`amount > i128::MAX / 2`. -/
def validate_amount (amount : Int) : Except ContractError Unit :=
  if amount ≤ 0 then .error .InvalidAmount
  else if amount > i128_MAX / 2 then .error .InvalidAmount
  else .ok ()

/-- From `validation.rs`: `validate_balance` calls `require_auth` (a host
abort, not an error value, so not modelled) and then rejects `amount <= 0`. -/
def validate_balance (_account : Address) (amount : Int) : Except ContractError Unit :=
  if amount ≤ 0 then .error .InvalidAmount
  else .ok ()

/-- From `validation.rs`: `validate_signature` calls `require_auth` (host
abort) and returns `Ok`. -/
def validate_signature (_signer : Address) : Except ContractError Unit := .ok ()

/-- From `validation.rs`: `check_reentrancy` fails with `ReentrancyDetected`
if the `reentry` flag is present, otherwise sets it. -/
def check_reentrancy (s : Storage) : Except ContractError Unit × Storage :=
  if s.reentry = true then (.error .ReentrancyDetected, s)
  else (.ok (), { s with reentry := true })

/-- From `validation.rs`: `clear_reentrancy` unconditionally removes the
flag. -/
def clear_reentrancy (s : Storage) : Storage := { s with reentry := false }

/-- From `storage.rs`: `set_admin`. -/
def set_admin (s : Storage) (admin : Address) : Storage := { s with admin := some admin }

/-- From `storage.rs`: `get_next_transaction_id` reads the `tx_count`
counter (default 0 if absent), increments it by 1, persists and returns it. -/
def get_next_transaction_id (s : Storage) : Nat × Storage :=
  let current := s.tx_count.getD 0
  let next := current + 1
  (next, { s with tx_count := some next })

/-- From `storage.rs`: `set_transaction`. -/
def set_transaction (s : Storage) (id : Nat) (t : Transaction) : Storage :=
  { s with transactions := fun i => if i = id then some t else s.transactions i }

/-- From `storage.rs`: `get_next_escrow_id` (counter `esc_count`). -/
def get_next_escrow_id (s : Storage) : Nat × Storage :=
  let current := s.esc_count.getD 0
  let next := current + 1
  (next, { s with esc_count := some next })

/-- From `storage.rs`: `set_escrow`. -/
def set_escrow (s : Storage) (id : Nat) (e : EscrowContract) : Storage :=
  { s with escrows := fun i => if i = id then some e else s.escrows i }

/-- From `storage.rs`: `get_next_invoice_id` (counter `inv_count`). -/
def get_next_invoice_id (s : Storage) : Nat × Storage :=
  let current := s.inv_count.getD 0
  let next := current + 1
  (next, { s with inv_count := some next })

/-- From `storage.rs`: `set_invoice`. -/
def set_invoice (s : Storage) (id : Nat) (inv : Invoice) : Storage :=
  { s with invoices := fun i => if i = id then some inv else s.invoices i }

/-- From `lib.rs`: `execute_transaction`.  Note that the `?` on
`validate_amount` / `validate_balance` propagates the error without clearing
the reentrancy flag that `check_reentrancy` has just set. -/
def execute_transaction (now : Nat) (s : Storage) (sender recipient : Address)
    (amount : Int) (metadata : String) :
    Except ContractError TransactionResult × Storage :=
  match check_reentrancy s with
  | (.error e, s1) => (.error e, s1)
  | (.ok _, s1) =>
    match validate_address sender with
    | .error e => (.error e, s1)
    | .ok _ =>
    match validate_address recipient with
    | .error e => (.error e, s1)
    | .ok _ =>
    match validate_amount amount with
    | .error e => (.error e, s1)
    | .ok _ =>
    match validate_balance sender amount with
    | .error e => (.error e, s1)
    | .ok _ =>
      let p := get_next_transaction_id s1
      let tx_id := p.1
      let s2 := p.2
      let transaction : Transaction :=
        { id := tx_id, transaction_type := .Basic, sender := sender,
          recipient := recipient, amount := amount, status := .Pending,
          timestamp := now, metadata := metadata }
      let s3 := set_transaction s2 tx_id transaction
      let updated_transaction := { transaction with status := TransactionStatus.Confirmed }
      let s4 := set_transaction s3 tx_id updated_transaction
      let s5 := clear_reentrancy s4
      (.ok { transaction_id := tx_id, status := .Confirmed, tx_hash := "mock_tx_hash" }, s5)

/-- From `lib.rs`: `execute_p2p_transaction`; identical to
`execute_transaction` except for the transaction type, the metadata field
(`memo`) and the synthetic hash. -/
def execute_p2p_transaction (now : Nat) (s : Storage) (sender recipient : Address)
    (amount : Int) (memo : String) :
    Except ContractError TransactionResult × Storage :=
  match check_reentrancy s with
  | (.error e, s1) => (.error e, s1)
  | (.ok _, s1) =>
    match validate_address sender with
    | .error e => (.error e, s1)
    | .ok _ =>
    match validate_address recipient with
    | .error e => (.error e, s1)
    | .ok _ =>
    match validate_amount amount with
    | .error e => (.error e, s1)
    | .ok _ =>
    match validate_balance sender amount with
    | .error e => (.error e, s1)
    | .ok _ =>
      let p := get_next_transaction_id s1
      let tx_id := p.1
      let s2 := p.2
      let transaction : Transaction :=
        { id := tx_id, transaction_type := .P2P, sender := sender,
          recipient := recipient, amount := amount, status := .Pending,
          timestamp := now, metadata := memo }
      let s3 := set_transaction s2 tx_id transaction
      let updated_transaction := { transaction with status := TransactionStatus.Confirmed }
      let s4 := set_transaction s3 tx_id updated_transaction
      let s5 := clear_reentrancy s4
      (.ok { transaction_id := tx_id, status := .Confirmed, tx_hash := "p2p_tx_hash" }, s5)

/-- From `lib.rs`: `create_escrow`.  A non-future expiry is rejected with
`InvalidAmount` (sic, as in the source). -/
def create_escrow (now : Nat) (s : Storage) (sender recipient : Address)
    (amount : Int) (conditions : List Condition) (expires_at : Nat) :
    Except ContractError EscrowResult × Storage :=
  match check_reentrancy s with
  | (.error e, s1) => (.error e, s1)
  | (.ok _, s1) =>
    match validate_address sender with
    | .error e => (.error e, s1)
    | .ok _ =>
    match validate_address recipient with
    | .error e => (.error e, s1)
    | .ok _ =>
    match validate_amount amount with
    | .error e => (.error e, s1)
    | .ok _ =>
    match validate_balance sender amount with
    | .error e => (.error e, s1)
    | .ok _ =>
      if expires_at ≤ now then (.error .InvalidAmount, clear_reentrancy s1)
      else
        let p := get_next_escrow_id s1
        let escrow_id := p.1
        let s2 := p.2
        let escrow : EscrowContract :=
          { id := escrow_id, sender := sender, recipient := recipient,
            amount := amount, conditions := conditions, status := .Active,
            created_at := now, expires_at := expires_at }
        let s3 := set_escrow s2 escrow_id escrow
        (.ok { escrow_id := escrow_id, status := .Active, tx_hash := none },
         clear_reentrancy s3)

/-- From `lib.rs`: `check_single_condition`; every condition variant is a
placeholder that reports the condition as met. -/
def check_single_condition (condition : Condition) : Except ContractError Bool :=
  match condition.condition_type with
  | .TimeBased => .ok true
  | .OracleBased => .ok true
  | .ManualApproval => .ok true

/-- The `for condition in escrow.conditions` loop of
`check_escrow_conditions` in `lib.rs`: conjunction with short-circuit on the
first unmet condition, propagating any evaluation error. -/
def check_conditions_loop : List Condition → Except ContractError Bool
  | [] => .ok true
  | condition :: rest =>
    match check_single_condition condition with
    | .error e => .error e
    | .ok met => if met = false then .ok false else check_conditions_loop rest

/-- From `lib.rs`: `check_escrow_conditions` (read-only, no reentrancy
interaction). -/
def check_escrow_conditions (now : Nat) (s : Storage) (escrow_id : Nat) :
    Except ContractError Bool :=
  match s.escrows escrow_id with
  | none => .error .EscrowNotFound
  | some escrow =>
    if escrow.status ≠ .Active then .ok false
    else if now > escrow.expires_at then .ok false
    else check_conditions_loop escrow.conditions

/-- From `lib.rs`: `release_escrow`. -/
def release_escrow (now : Nat) (s : Storage) (escrow_id : Nat) :
    Except ContractError EscrowResult × Storage :=
  match check_reentrancy s with
  | (.error e, s1) => (.error e, s1)
  | (.ok _, s1) =>
    match s1.escrows escrow_id with
    | none => (.error .EscrowNotFound, s1)
    | some escrow =>
      if escrow.status ≠ .Active then (.error .EscrowNotFound, clear_reentrancy s1)
      else if now > escrow.expires_at then (.error .EscrowExpired, clear_reentrancy s1)
      else
        match check_escrow_conditions now s1 escrow_id with
        | .error e => (.error e, s1)
        | .ok met =>
          if met = false then (.error .ConditionsNotMet, clear_reentrancy s1)
          else
            let escrow2 := { escrow with status := EscrowStatus.Released }
            let s2 := set_escrow s1 escrow_id escrow2
            (.ok { escrow_id := escrow_id, status := .Released,
                   tx_hash := some "release_tx_hash" }, clear_reentrancy s2)

/-- From `lib.rs`: `refund_escrow`; refund requires the escrow to be past
its expiry. -/
def refund_escrow (now : Nat) (s : Storage) (escrow_id : Nat) :
    Except ContractError EscrowResult × Storage :=
  match check_reentrancy s with
  | (.error e, s1) => (.error e, s1)
  | (.ok _, s1) =>
    match s1.escrows escrow_id with
    | none => (.error .EscrowNotFound, s1)
    | some escrow =>
      if escrow.status ≠ .Active then (.error .EscrowNotFound, clear_reentrancy s1)
      else if now ≤ escrow.expires_at then (.error .ConditionsNotMet, clear_reentrancy s1)
      else
        let escrow2 := { escrow with status := EscrowStatus.Refunded }
        let s2 := set_escrow s1 escrow_id escrow2
        (.ok { escrow_id := escrow_id, status := .Refunded,
               tx_hash := some "refund_tx_hash" }, clear_reentrancy s2)

/-- From `lib.rs`: `process_escrow`; performs no reentrancy check of its own
and delegates to `refund_escrow` / `release_escrow`. -/
def process_escrow (now : Nat) (s : Storage) (escrow_id : Nat) :
    Except ContractError EscrowResult × Storage :=
  match s.escrows escrow_id with
  | none => (.error .EscrowNotFound, s)
  | some escrow =>
    if escrow.status ≠ .Active then (.error .EscrowNotFound, s)
    else if now > escrow.expires_at then refund_escrow now s escrow_id
    else
      match check_escrow_conditions now s escrow_id with
      | .error e => (.error e, s)
      | .ok met =>
        if met = true then release_escrow now s escrow_id
        else (.ok { escrow_id := escrow_id, status := .Active, tx_hash := none }, s)

/-- From `lib.rs`: `create_invoice`.  A non-future due date is rejected with
`InvalidAmount` (sic, as in the source). -/
def create_invoice (now : Nat) (s : Storage) (creator client : Address)
    (amount : Int) (description : String) (due_date : Nat) :
    Except ContractError InvoiceResult × Storage :=
  match check_reentrancy s with
  | (.error e, s1) => (.error e, s1)
  | (.ok _, s1) =>
    match validate_address creator with
    | .error e => (.error e, s1)
    | .ok _ =>
    match validate_address client with
    | .error e => (.error e, s1)
    | .ok _ =>
    match validate_amount amount with
    | .error e => (.error e, s1)
    | .ok _ =>
      if due_date ≤ now then (.error .InvalidAmount, clear_reentrancy s1)
      else
        let p := get_next_invoice_id s1
        let invoice_id := p.1
        let s2 := p.2
        let invoice : Invoice :=
          { id := invoice_id, creator := creator, client := client,
            amount := amount, description := description, status := .Draft,
            created_at := now, due_date := due_date, approved_at := none }
        let s3 := set_invoice s2 invoice_id invoice
        (.ok { invoice_id := invoice_id, status := .Draft, tx_hash := none },
         clear_reentrancy s3)

/-- From `lib.rs`: `approve_invoice`.  The already-approved check (status not
`Sent` and not `Draft`) comes before the expiry check. -/
def approve_invoice (now : Nat) (s : Storage) (invoice_id : Nat) (client : Address) :
    Except ContractError InvoiceResult × Storage :=
  match check_reentrancy s with
  | (.error e, s1) => (.error e, s1)
  | (.ok _, s1) =>
    match s1.invoices invoice_id with
    | none => (.error .InvoiceNotFound, s1)
    | some invoice =>
      match validate_signature client with
      | .error e => (.error e, s1)
      | .ok _ =>
        if invoice.client ≠ client then (.error .Unauthorized, clear_reentrancy s1)
        else if invoice.status ≠ .Sent ∧ invoice.status ≠ .Draft then
          (.error .InvoiceAlreadyApproved, clear_reentrancy s1)
        else if now > invoice.due_date then
          let invoice2 := { invoice with status := InvoiceStatus.Expired }
          (.error .InvoiceExpired, clear_reentrancy (set_invoice s1 invoice_id invoice2))
        else
          let invoice2 :=
            { invoice with status := InvoiceStatus.Approved, approved_at := some now }
          (.ok { invoice_id := invoice_id, status := .Approved, tx_hash := none },
           clear_reentrancy (set_invoice s1 invoice_id invoice2))

/-- From `lib.rs`: `execute_invoice`.  Requires status `Approved`; on passed
due date it persists the invoice as `Expired` and reports `InvoiceExpired`
(`approved_at` is left untouched). -/
def execute_invoice (now : Nat) (s : Storage) (invoice_id : Nat) :
    Except ContractError InvoiceResult × Storage :=
  match check_reentrancy s with
  | (.error e, s1) => (.error e, s1)
  | (.ok _, s1) =>
    match s1.invoices invoice_id with
    | none => (.error .InvoiceNotFound, s1)
    | some invoice =>
      if invoice.status ≠ .Approved then (.error .Unauthorized, clear_reentrancy s1)
      else if now > invoice.due_date then
        let invoice2 := { invoice with status := InvoiceStatus.Expired }
        (.error .InvoiceExpired, clear_reentrancy (set_invoice s1 invoice_id invoice2))
      else
        match validate_balance invoice.client invoice.amount with
        | .error e => (.error e, s1)
        | .ok _ =>
          let invoice2 := { invoice with status := InvoiceStatus.Executed }
          (.ok { invoice_id := invoice_id, status := .Executed,
                 tx_hash := some "invoice_payment_tx_hash" },
           clear_reentrancy (set_invoice s1 invoice_id invoice2))

/-- From `lib.rs`: `reject_invoice`. -/
def reject_invoice (_now : Nat) (s : Storage) (invoice_id : Nat) (client : Address)
    (_reason : String) : Except ContractError InvoiceResult × Storage :=
  match check_reentrancy s with
  | (.error e, s1) => (.error e, s1)
  | (.ok _, s1) =>
    match s1.invoices invoice_id with
    | none => (.error .InvoiceNotFound, s1)
    | some invoice =>
      match validate_signature client with
      | .error e => (.error e, s1)
      | .ok _ =>
        if invoice.client ≠ client then (.error .Unauthorized, clear_reentrancy s1)
        else if invoice.status ≠ .Sent ∧ invoice.status ≠ .Draft then
          (.error .Unauthorized, clear_reentrancy s1)
        else
          let invoice2 := { invoice with status := InvoiceStatus.Rejected }
          (.ok { invoice_id := invoice_id, status := .Rejected, tx_hash := none },
           clear_reentrancy (set_invoice s1 invoice_id invoice2))

/-- From `lib.rs`: `check_invoice_expiration`; performs no reentrancy
check. -/
def check_invoice_expiration (now : Nat) (s : Storage) (invoice_id : Nat) :
    Except ContractError InvoiceResult × Storage :=
  match s.invoices invoice_id with
  | none => (.error .InvoiceNotFound, s)
  | some invoice =>
    if invoice.status ≠ .Sent ∧ invoice.status ≠ .Approved then
      (.ok { invoice_id := invoice_id, status := invoice.status, tx_hash := none }, s)
    else if now > invoice.due_date then
      let invoice2 := { invoice with status := InvoiceStatus.Expired }
      (.ok { invoice_id := invoice_id, status := .Expired, tx_hash := none },
       set_invoice s invoice_id invoice2)
    else
      (.ok { invoice_id := invoice_id, status := invoice.status, tx_hash := none }, s)

/-- From `lib.rs`: `mark_invoice_sent`; performs no reentrancy check. -/
def mark_invoice_sent (s : Storage) (invoice_id : Nat) (creator : Address) :
    Except ContractError InvoiceResult × Storage :=
  match s.invoices invoice_id with
  | none => (.error .InvoiceNotFound, s)
  | some invoice =>
    if invoice.creator ≠ creator then (.error .Unauthorized, s)
    else if invoice.status ≠ .Draft then (.error .Unauthorized, s)
    else
      let invoice2 := { invoice with status := InvoiceStatus.Sent }
      (.ok { invoice_id := invoice_id, status := .Sent, tx_hash := none },
       set_invoice s invoice_id invoice2)

/-- From `lib.rs`: `initialize` (stores the admin entry). -/
def init_admin (s : Storage) (admin : Address) : Except ContractError Unit × Storage :=
  (.ok (), set_admin s admin)

/-- One invocation of a state-mutating public operation of the contract,
together with its arguments (the read-only getters never write and are
omitted). -/
inductive Op where
  | opExecuteTransaction (sender recipient : Address) (amount : Int) (metadata : String)
  | opExecuteP2P (sender recipient : Address) (amount : Int) (memo : String)
  | opCreateEscrow (sender recipient : Address) (amount : Int)
      (conditions : List Condition) (expires_at : Nat)
  | opReleaseEscrow (escrow_id : Nat)
  | opRefundEscrow (escrow_id : Nat)
  | opProcessEscrow (escrow_id : Nat)
  | opCreateInvoice (creator client : Address) (amount : Int)
      (description : String) (due_date : Nat)
  | opApproveInvoice (invoice_id : Nat) (client : Address)
  | opExecuteInvoice (invoice_id : Nat)
  | opRejectInvoice (invoice_id : Nat) (client : Address) (reason : String)
  | opMarkInvoiceSent (invoice_id : Nat) (creator : Address)
  | opCheckInvoiceExpiration (invoice_id : Nat)
  | opInitAdmin (admin : Address)

/-- The storage left behind by one public operation invoked at ledger time
`now` (its result value is discarded). -/
def applyOp (now : Nat) (op : Op) (s : Storage) : Storage :=
  match op with
  | .opExecuteTransaction a b amt md => (execute_transaction now s a b amt md).2
  | .opExecuteP2P a b amt memo => (execute_p2p_transaction now s a b amt memo).2
  | .opCreateEscrow a b amt cs t => (create_escrow now s a b amt cs t).2
  | .opReleaseEscrow e => (release_escrow now s e).2
  | .opRefundEscrow e => (refund_escrow now s e).2
  | .opProcessEscrow e => (process_escrow now s e).2
  | .opCreateInvoice a b amt d t => (create_invoice now s a b amt d t).2
  | .opApproveInvoice i c => (approve_invoice now s i c).2
  | .opExecuteInvoice i => (execute_invoice now s i).2
  | .opRejectInvoice i c r => (reject_invoice now s i c r).2
  | .opMarkInvoiceSent i c => (mark_invoice_sent s i c).2
  | .opCheckInvoiceExpiration i => (check_invoice_expiration now s i).2
  | .opInitAdmin a => (init_admin s a).2

/-- The storage left behind by a sequence of public operations, each paired
with the ledger time at which it runs. -/
def applyOps : List (Nat × Op) → Storage → Storage
  | [], s => s
  | (now, op) :: rest, s => applyOps rest (applyOp now op s)

/-- The storage of a freshly deployed contract: flag clear, no admin, no
counters, no records. -/
def initialStorage : Storage :=
  { reentry := false, admin := none, tx_count := none, esc_count := none,
    inv_count := none, transactions := fun _ => none, escrows := fun _ => none,
    invoices := fun _ => none }

/-- The ids handed out by `n` successive calls to
`get_next_transaction_id`, in call order. -/
def txAllocs : Nat → Storage → List Nat
  | 0, _ => []
  | n + 1, s => (get_next_transaction_id s).1 :: txAllocs n (get_next_transaction_id s).2

/-- The ids handed out by `n` successive calls to `get_next_escrow_id`. -/
def escAllocs : Nat → Storage → List Nat
  | 0, _ => []
  | n + 1, s => (get_next_escrow_id s).1 :: escAllocs n (get_next_escrow_id s).2

/-- The ids handed out by `n` successive calls to `get_next_invoice_id`. -/
def invAllocs : Nat → Storage → List Nat
  | 0, _ => []
  | n + 1, s => (get_next_invoice_id s).1 :: invAllocs n (get_next_invoice_id s).2

deriving instance DecidableEq for Except

/-- The `approved_at` discipline that the code actually maintains: the
timestamp is present when the status is `Approved` or `Executed`, absent when
it is `Draft`, `Sent` or `Rejected`, and unconstrained on `Expired` (an
invoice that expires out of `Approved` keeps its timestamp). -/
def invoice_timestamp_inv (inv : Invoice) : Prop :=
  ((inv.status = .Approved ∨ inv.status = .Executed) → inv.approved_at ≠ none) ∧
  ((inv.status = .Draft ∨ inv.status = .Sent ∨ inv.status = .Rejected) →
    inv.approved_at = none)

/-- Every invoice stored in `s` satisfies `invoice_timestamp_inv`. -/
def all_invoices_inv (s : Storage) : Prop :=
  ∀ i inv, s.invoices i = some inv → invoice_timestamp_inv inv

/-- A draft invoice fixture (id 1, creator 1, client 2, due at 10). -/
def invDraft : Invoice :=
  { id := 1, creator := 1, client := 2, amount := 100, description := "d",
    status := .Draft, created_at := 0, due_date := 10, approved_at := none }

/-- Storage whose reentrancy flag is set and which holds `invDraft` at id 1. -/
def sFlagged : Storage :=
  { initialStorage with
    reentry := true,
    invoices := fun i => if i = 1 then some invDraft else none }

/-- An approved invoice fixture whose due date (10) can be outrun. -/
def invApproved : Invoice :=
  { id := 1, creator := 1, client := 2, amount := 100, description := "d",
    status := .Approved, created_at := 0, due_date := 10, approved_at := some 5 }

/-- Storage holding `invApproved` at id 1, flag clear. -/
def sApproved : Storage :=
  { initialStorage with invoices := fun i => if i = 1 then some invApproved else none }

/-- A sent invoice fixture with due date 10. -/
def invSent : Invoice :=
  { id := 1, creator := 1, client := 2, amount := 100, description := "d",
    status := .Sent, created_at := 0, due_date := 10, approved_at := none }

/-- Storage holding `invSent` at id 1, flag clear. -/
def sSent : Storage :=
  { initialStorage with invoices := fun i => if i = 1 then some invSent else none }

/-- A rejected invoice fixture. -/
def invRejected : Invoice :=
  { id := 1, creator := 1, client := 2, amount := 100, description := "d",
    status := .Rejected, created_at := 0, due_date := 10, approved_at := none }

/-- Storage holding `invRejected` at id 1, flag clear. -/
def sRejected : Storage :=
  { initialStorage with invoices := fun i => if i = 1 then some invRejected else none }

/-- An active escrow fixture with no conditions, expiring at 10. -/
def escActive : EscrowContract :=
  { id := 1, sender := 1, recipient := 2, amount := 100, conditions := [],
    status := .Active, created_at := 0, expires_at := 10 }

/-- Storage holding `escActive` at id 1, counter in sync, flag clear. -/
def sActive : Storage :=
  { initialStorage with
    esc_count := some 1,
    escrows := fun i => if i = 1 then some escActive else none }

/-- A released (terminal) escrow fixture. -/
def escReleased : EscrowContract :=
  { id := 1, sender := 1, recipient := 2, amount := 100, conditions := [],
    status := .Released, created_at := 0, expires_at := 10 }

/-- Storage holding `escReleased` at id 1, counter in sync, flag clear. -/
def sReleased : Storage :=
  { initialStorage with
    esc_count := some 1,
    escrows := fun i => if i = 1 then some escReleased else none }

/-- The invoice produced by creating (due 10), sending, approving at time 5
and then letting `check_invoice_expiration` run at time 20: it is `Expired`
yet keeps `approved_at = some 5`. -/
def invExpiredKept : Invoice :=
  { id := 1, creator := 1, client := 2, amount := 100, description := "d",
    status := .Expired, created_at := 0, due_date := 10, approved_at := some 5 }

/-- Projection facts for the storage builders. -/
@[simp] lemma clear_reentrancy_escrows (s : Storage) :
    (clear_reentrancy s).escrows = s.escrows := rfl

@[simp] lemma clear_reentrancy_invoices (s : Storage) :
    (clear_reentrancy s).invoices = s.invoices := rfl

@[simp] lemma clear_reentrancy_transactions (s : Storage) :
    (clear_reentrancy s).transactions = s.transactions := rfl

@[simp] lemma clear_reentrancy_esc_count (s : Storage) :
    (clear_reentrancy s).esc_count = s.esc_count := rfl

@[simp] lemma clear_reentrancy_tx_count (s : Storage) :
    (clear_reentrancy s).tx_count = s.tx_count := rfl

@[simp] lemma clear_reentrancy_inv_count (s : Storage) :
    (clear_reentrancy s).inv_count = s.inv_count := rfl

@[simp] lemma set_transaction_escrows (s : Storage) (id : Nat) (t : Transaction) :
    (set_transaction s id t).escrows = s.escrows := rfl

@[simp] lemma set_transaction_invoices (s : Storage) (id : Nat) (t : Transaction) :
    (set_transaction s id t).invoices = s.invoices := rfl

@[simp] lemma set_transaction_esc_count (s : Storage) (id : Nat) (t : Transaction) :
    (set_transaction s id t).esc_count = s.esc_count := rfl

@[simp] lemma set_escrow_invoices (s : Storage) (id : Nat) (e : EscrowContract) :
    (set_escrow s id e).invoices = s.invoices := rfl

@[simp] lemma set_escrow_esc_count (s : Storage) (id : Nat) (e : EscrowContract) :
    (set_escrow s id e).esc_count = s.esc_count := rfl

@[simp] lemma set_escrow_escrows (s : Storage) (id : Nat) (e : EscrowContract)
    (i : Nat) :
    (set_escrow s id e).escrows i = if i = id then some e else s.escrows i := rfl

@[simp] lemma set_invoice_escrows (s : Storage) (id : Nat) (inv : Invoice) :
    (set_invoice s id inv).escrows = s.escrows := rfl

@[simp] lemma set_invoice_esc_count (s : Storage) (id : Nat) (inv : Invoice) :
    (set_invoice s id inv).esc_count = s.esc_count := rfl

@[simp] lemma set_invoice_invoices (s : Storage) (id : Nat) (inv : Invoice)
    (i : Nat) :
    (set_invoice s id inv).invoices i = if i = id then some inv else s.invoices i := rfl

/-- Claim C1 (code bug): `execute_transaction` invoked on a fresh contract
with amount 0 returns `InvalidAmount` through the `?` on `validate_amount`,
which skips `clear_reentrancy`; the resulting storage keeps the reentrancy
flag set, so a well-formed follow-up call from a clean caller is rejected
with `ReentrancyDetected` — the guard is permanently wedged, contradicting
the requirement that the flag is unset on every return path. -/
theorem reentrancy_guard_wedged_on_validation_error :
    initialStorage.reentry = false ∧
    (execute_transaction 0 initialStorage 1 2 0 "m").1 = .error .InvalidAmount ∧
    (execute_transaction 0 initialStorage 1 2 0 "m").2.reentry = true ∧
    (execute_transaction 5 (execute_transaction 0 initialStorage 1 2 0 "m").2
        3 4 7 "x").1 = .error .ReentrancyDetected := by
  refine ⟨rfl, rfl, rfl, rfl⟩

/-- Claim C2 (amended): in any storage whose reentrancy flag is set, each of
the nine public mutating operations that call `check_reentrancy`
(`execute_transaction`, `execute_p2p_transaction`, `create_escrow`,
`release_escrow`, `refund_escrow`, `create_invoice`, `approve_invoice`,
`execute_invoice`, `reject_invoice`) fails with `ReentrancyDetected` and
returns the storage completely unchanged — hence every entity record
unchanged. (`mark_invoice_sent` and `check_invoice_expiration` perform no
reentrancy check; see the counterexample.) -/
theorem guarded_ops_fail_when_flag_set (s : Storage) (hflag : s.reentry = true) :
    (∀ now a b amt md, execute_transaction now s a b amt md
        = (.error .ReentrancyDetected, s)) ∧
    (∀ now a b amt md, execute_p2p_transaction now s a b amt md
        = (.error .ReentrancyDetected, s)) ∧
    (∀ now a b amt cs t, create_escrow now s a b amt cs t
        = (.error .ReentrancyDetected, s)) ∧
    (∀ now e, release_escrow now s e = (.error .ReentrancyDetected, s)) ∧
    (∀ now e, refund_escrow now s e = (.error .ReentrancyDetected, s)) ∧
    (∀ now a b amt d t, create_invoice now s a b amt d t
        = (.error .ReentrancyDetected, s)) ∧
    (∀ now i c, approve_invoice now s i c = (.error .ReentrancyDetected, s)) ∧
    (∀ now i, execute_invoice now s i = (.error .ReentrancyDetected, s)) ∧
    (∀ now i c r, reject_invoice now s i c r = (.error .ReentrancyDetected, s)) := by
  refine ⟨fun now a b amt md => ?_, fun now a b amt md => ?_,
    fun now a b amt cs t => ?_, fun now e => ?_, fun now e => ?_,
    fun now a b amt d t => ?_, fun now i c => ?_, fun now i => ?_,
    fun now i c r => ?_⟩ <;>
  simp [execute_transaction, execute_p2p_transaction, create_escrow,
    release_escrow, refund_escrow, create_invoice, approve_invoice,
    execute_invoice, reject_invoice, check_reentrancy, hflag]

/-- Witness for C2: concrete guarded calls on a flagged storage. -/
theorem guarded_ops_fail_when_flag_set_witness :
    execute_transaction 0 sFlagged 1 2 5 "m" = (.error .ReentrancyDetected, sFlagged) ∧
    release_escrow 0 sFlagged 1 = (.error .ReentrancyDetected, sFlagged) :=
  ⟨(guarded_ops_fail_when_flag_set sFlagged rfl).1 0 1 2 5 "m",
   (guarded_ops_fail_when_flag_set sFlagged rfl).2.2.2.1 0 1⟩

/-- Counterexample for C2: with the reentrancy flag set, `mark_invoice_sent`
does not fail with `ReentrancyDetected`; it succeeds and mutates the stored
invoice record. -/
theorem mark_invoice_sent_ignores_guard :
    sFlagged.reentry = true ∧
    (mark_invoice_sent sFlagged 1 1).1
      = .ok { invoice_id := 1, status := .Sent, tx_hash := none } ∧
    (mark_invoice_sent sFlagged 1 1).2.invoices 1
      = some { invDraft with status := InvoiceStatus.Sent } ∧
    (mark_invoice_sent sFlagged 1 1).2.invoices 1 ≠ some invDraft := by
  refine ⟨rfl, rfl, rfl, by decide⟩

/-- Claim C4: for an active stored escrow, `refund_escrow` at or before the
expiry fails with `ConditionsNotMet`, and `release_escrow` strictly after the
expiry fails with `EscrowExpired`; in both cases the stored record is
unchanged. -/
theorem escrow_time_window (now : Nat) (s : Storage) (e : Nat)
    (esc : EscrowContract) (hstore : s.escrows e = some esc)
    (hact : esc.status = .Active) (hguard : s.reentry = false) :
    (now ≤ esc.expires_at →
      (refund_escrow now s e).1 = .error .ConditionsNotMet ∧
      (refund_escrow now s e).2.escrows e = some esc) ∧
    (esc.expires_at < now →
      (release_escrow now s e).1 = .error .EscrowExpired ∧
      (release_escrow now s e).2.escrows e = some esc) := by
  constructor
  · intro h
    simp [refund_escrow, check_reentrancy, hguard, hstore, hact, h]
  · intro h
    simp [release_escrow, check_reentrancy, hguard, hstore, hact, h]

/-- Witness for C4: the concrete active escrow `escActive` (expiry 10). -/
theorem escrow_time_window_witness :
    (refund_escrow 5 sActive 1).1 = .error .ConditionsNotMet ∧
    (release_escrow 20 sActive 1).1 = .error .EscrowExpired :=
  ⟨((escrow_time_window 5 sActive 1 escActive rfl rfl rfl).1 (by decide)).1,
   ((escrow_time_window 20 sActive 1 escActive rfl rfl rfl).2 (by decide)).1⟩

/-- The amount validator rejects every non-positive amount and every amount
above half the `i128` maximum. -/
lemma validate_amount_invalid (amount : Int)
    (h : amount ≤ 0 ∨ amount > i128_MAX / 2) :
    validate_amount amount = .error .InvalidAmount := by
  rcases h with h | h
  · simp [validate_amount, h]
  · have h0 : ¬ amount ≤ 0 := fun hc =>
      absurd h (not_lt.mpr (hc.trans (by decide : (0 : Int) ≤ i128_MAX / 2)))
    simp [validate_amount, h0, h]

/-- Claim C7: an amount that is non-positive or exceeds half the `i128`
maximum is rejected with `InvalidAmount` by all four creation operations,
none of which stores any transaction, escrow or invoice record; the boundary
amount `i128::MAX / 2` itself passes the amount check. -/
theorem creation_rejects_invalid_amount (now : Nat) (s : Storage)
    (a b : Address) (amount : Int) (md d : String) (cs : List Condition)
    (t : Nat) (hguard : s.reentry = false)
    (hbad : amount ≤ 0 ∨ amount > i128_MAX / 2) :
    ((execute_transaction now s a b amount md).1 = .error .InvalidAmount ∧
     (execute_transaction now s a b amount md).2.transactions = s.transactions ∧
     (execute_transaction now s a b amount md).2.escrows = s.escrows ∧
     (execute_transaction now s a b amount md).2.invoices = s.invoices) ∧
    ((execute_p2p_transaction now s a b amount md).1 = .error .InvalidAmount ∧
     (execute_p2p_transaction now s a b amount md).2.transactions = s.transactions ∧
     (execute_p2p_transaction now s a b amount md).2.escrows = s.escrows ∧
     (execute_p2p_transaction now s a b amount md).2.invoices = s.invoices) ∧
    ((create_escrow now s a b amount cs t).1 = .error .InvalidAmount ∧
     (create_escrow now s a b amount cs t).2.transactions = s.transactions ∧
     (create_escrow now s a b amount cs t).2.escrows = s.escrows ∧
     (create_escrow now s a b amount cs t).2.invoices = s.invoices) ∧
    ((create_invoice now s a b amount d t).1 = .error .InvalidAmount ∧
     (create_invoice now s a b amount d t).2.transactions = s.transactions ∧
     (create_invoice now s a b amount d t).2.escrows = s.escrows ∧
     (create_invoice now s a b amount d t).2.invoices = s.invoices) ∧
    validate_amount (i128_MAX / 2) = .ok () := by
  have hva := validate_amount_invalid amount hbad
  refine ⟨⟨?_, ?_, ?_, ?_⟩, ⟨?_, ?_, ?_, ?_⟩, ⟨?_, ?_, ?_, ?_⟩,
    ⟨?_, ?_, ?_, ?_⟩, by decide⟩ <;>
  simp [execute_transaction, execute_p2p_transaction, create_escrow,
    create_invoice, validate_address, check_reentrancy, hguard, hva]

/-- Witness for C7: amount 0 and amount `i128::MAX` on a fresh contract. -/
theorem creation_rejects_invalid_amount_witness :
    (execute_transaction 0 initialStorage 1 2 0 "m").1 = .error .InvalidAmount ∧
    (create_invoice 0 initialStorage 1 2 i128_MAX "d" 10).1 = .error .InvalidAmount :=
  ⟨((creation_rejects_invalid_amount 0 initialStorage 1 2 0 "m" "d" [] 10 rfl
      (Or.inl (by decide))).1).1,
   ((creation_rejects_invalid_amount 0 initialStorage 1 2 i128_MAX "m" "d" [] 10 rfl
      (Or.inr (by decide))).2.2.2.1).1⟩

/-- Every condition variant evaluates to met in the source placeholders. -/
lemma check_single_condition_true (c : Condition) :
    check_single_condition c = .ok true := by
  cases h : c.condition_type <;> simp [check_single_condition, h]

/-- The condition loop therefore always reports all conditions met. -/
lemma check_conditions_loop_true (l : List Condition) :
    check_conditions_loop l = .ok true := by
  induction l with
  | nil => rfl
  | cons c rest ih => simp [check_conditions_loop, check_single_condition_true c, ih]

/-- Claim C9: `check_escrow_conditions` fails with `EscrowNotFound` when the
id is absent, returns `Ok false` (not an error) when the status is not
`Active` or the ledger time is strictly past the expiry, and otherwise
returns `Ok true` exactly when every condition in the sequence evaluates
true — in particular an active, unexpired escrow with no conditions yields
`Ok true`. -/
theorem check_escrow_conditions_spec (now : Nat) (s : Storage) (e : Nat) :
    (s.escrows e = none →
      check_escrow_conditions now s e = .error .EscrowNotFound) ∧
    (∀ esc, s.escrows e = some esc →
      esc.status ≠ .Active ∨ esc.expires_at < now →
      check_escrow_conditions now s e = .ok false) ∧
    (∀ esc, s.escrows e = some esc → esc.status = .Active →
      now ≤ esc.expires_at →
      ((check_escrow_conditions now s e = .ok true ↔
          ∀ c ∈ esc.conditions, check_single_condition c = .ok true) ∧
       (esc.conditions = [] → check_escrow_conditions now s e = .ok true))) := by
  refine ⟨fun h => by simp [check_escrow_conditions, h],
    fun esc h hcase => ?_, fun esc h hact hle => ?_⟩
  · rcases hcase with hs | ht
    · simp [check_escrow_conditions, h, hs]
    · by_cases hs : esc.status = EscrowStatus.Active
      · simp [check_escrow_conditions, h, hs, ht]
      · simp [check_escrow_conditions, h, hs]
  · simp [check_escrow_conditions, h, hact, Nat.not_lt.mpr hle,
      check_conditions_loop_true, check_single_condition_true]

/-- Witness for C9: a missing id, a released escrow, and an active empty
condition escrow. -/
theorem check_escrow_conditions_spec_witness :
    check_escrow_conditions 5 sActive 2 = .error .EscrowNotFound ∧
    check_escrow_conditions 5 sReleased 1 = .ok false ∧
    check_escrow_conditions 5 sActive 1 = .ok true :=
  ⟨(check_escrow_conditions_spec 5 sActive 2).1 rfl,
   (check_escrow_conditions_spec 5 sReleased 1).2.1 escReleased rfl
     (Or.inl (by decide)),
   ((check_escrow_conditions_spec 5 sActive 1).2.2 escActive rfl rfl
     (by decide)).2 rfl⟩

/-- Claim C10: `approve_invoice` called by the invoice's client on a stored
invoice whose status is neither `Draft` nor `Sent` (so `Approved`,
`Executed`, `Rejected` or `Expired`) fails with `InvoiceAlreadyApproved` and
leaves the stored record unchanged. -/
theorem approve_rejects_non_pending (now : Nat) (s : Storage) (i : Nat)
    (inv : Invoice) (hguard : s.reentry = false)
    (hstore : s.invoices i = some inv)
    (hs1 : inv.status ≠ .Draft) (hs2 : inv.status ≠ .Sent) :
    (approve_invoice now s i inv.client).1 = .error .InvoiceAlreadyApproved ∧
    (approve_invoice now s i inv.client).2.invoices i = some inv := by
  simp [approve_invoice, check_reentrancy, hguard, hstore, validate_signature,
    hs1, hs2]

/-- Witness for C10: approving the rejected invoice `invRejected`. -/
theorem approve_rejects_non_pending_witness :
    (approve_invoice 5 sRejected 1 2).1 = .error .InvoiceAlreadyApproved ∧
    (approve_invoice 5 sRejected 1 2).2.invoices 1 = some invRejected :=
  approve_rejects_non_pending 5 sRejected 1 invRejected rfl rfl
    (by decide) (by decide)

/-- Counterexample for C5: on an invoice that is already `Approved` and past
its due date, `approve_invoice` by the matching client does NOT persist
`Expired` and does NOT return `InvoiceExpired` — the status gate fires first
and the call returns `InvoiceAlreadyApproved` with the record unchanged. -/
theorem approve_expired_approved_invoice_cex :
    sApproved.invoices 1 = some invApproved ∧
    invApproved.status = .Approved ∧
    invApproved.due_date < 20 ∧
    (approve_invoice 20 sApproved 1 2).1 = .error .InvoiceAlreadyApproved ∧
    (approve_invoice 20 sApproved 1 2).1 ≠ .error .InvoiceExpired ∧
    (approve_invoice 20 sApproved 1 2).2.invoices 1 = some invApproved ∧
    invApproved.status ≠ .Expired := by
  refine ⟨rfl, rfl, by decide, rfl, by decide, rfl, by decide⟩

/-- Claim C5 (amended): for a stored invoice whose due date has passed,
`execute_invoice` on an `Approved` invoice persists it as `Expired` and
returns `InvoiceExpired`, and `approve_invoice` by the matching client on a
`Draft` or `Sent` invoice persists it as `Expired` and returns
`InvoiceExpired`; but `approve_invoice` on an invoice that is already
`Approved` fails with `InvoiceAlreadyApproved` and leaves the record
unchanged (its status gate precedes the expiry check). -/
theorem invoice_expiry_on_attempt (now : Nat) (s : Storage) (i : Nat)
    (inv : Invoice) (hguard : s.reentry = false)
    (hstore : s.invoices i = some inv) (hexp : inv.due_date < now) :
    (inv.status = .Approved →
      (execute_invoice now s i).1 = .error .InvoiceExpired ∧
      (execute_invoice now s i).2.invoices i
        = some { inv with status := InvoiceStatus.Expired }) ∧
    ((inv.status = .Draft ∨ inv.status = .Sent) →
      (approve_invoice now s i inv.client).1 = .error .InvoiceExpired ∧
      (approve_invoice now s i inv.client).2.invoices i
        = some { inv with status := InvoiceStatus.Expired }) ∧
    (inv.status = .Approved →
      (approve_invoice now s i inv.client).1 = .error .InvoiceAlreadyApproved ∧
      (approve_invoice now s i inv.client).2.invoices i = some inv) := by
  refine ⟨fun h => ?_, fun h => ?_, fun h => ?_⟩
  · simp [execute_invoice, check_reentrancy, hguard, hstore, h, hexp]
  · rcases h with h | h <;>
      simp [approve_invoice, check_reentrancy, hguard, hstore,
        validate_signature, h, hexp]
  · simp [approve_invoice, check_reentrancy, hguard, hstore,
      validate_signature, h, hexp]

/-- Witness for C5 (amended): concrete expired attempts at time 20 on the
approved and sent fixtures (due date 10). -/
theorem invoice_expiry_on_attempt_witness :
    (execute_invoice 20 sApproved 1).1 = .error .InvoiceExpired ∧
    (approve_invoice 20 sSent 1 2).1 = .error .InvoiceExpired ∧
    (approve_invoice 20 sApproved 1 2).1 = .error .InvoiceAlreadyApproved :=
  ⟨((invoice_expiry_on_attempt 20 sApproved 1 invApproved rfl rfl
      (by decide)).1 rfl).1,
   ((invoice_expiry_on_attempt 20 sSent 1 invSent rfl rfl
      (by decide)).2.1 (Or.inr rfl)).1,
   ((invoice_expiry_on_attempt 20 sApproved 1 invApproved rfl rfl
      (by decide)).2.2 rfl).1⟩

/-- Every id issued after state `s` exceeds the transaction counter of `s`. -/
lemma txAllocs_mem_gt (n : Nat) :
    ∀ (s : Storage), ∀ x ∈ txAllocs n s, s.tx_count.getD 0 < x := by
  induction n with
  | zero => intro s x hx; simp [txAllocs] at hx
  | succ n ih =>
    intro s x hx
    simp only [txAllocs, List.mem_cons] at hx
    rcases hx with h | h
    · simp only [get_next_transaction_id] at h; omega
    · have h2 := ih _ x h
      simp only [get_next_transaction_id, Option.getD_some] at h2
      omega

/-- Successive transaction ids are pairwise strictly increasing. -/
lemma txAllocs_pairwise (n : Nat) :
    ∀ s : Storage, (txAllocs n s).Pairwise (· < ·) := by
  induction n with
  | zero => intro s; simp [txAllocs]
  | succ n ih =>
    intro s
    simp only [txAllocs]
    refine List.Pairwise.cons (fun x hx => ?_) (ih _)
    have h1 := txAllocs_mem_gt n _ x hx
    simp only [get_next_transaction_id, Option.getD_some] at h1 ⊢
    omega

/-- Every id issued after state `s` exceeds the escrow counter of `s`. -/
lemma escAllocs_mem_gt (n : Nat) :
    ∀ (s : Storage), ∀ x ∈ escAllocs n s, s.esc_count.getD 0 < x := by
  induction n with
  | zero => intro s x hx; simp [escAllocs] at hx
  | succ n ih =>
    intro s x hx
    simp only [escAllocs, List.mem_cons] at hx
    rcases hx with h | h
    · simp only [get_next_escrow_id] at h; omega
    · have h2 := ih _ x h
      simp only [get_next_escrow_id, Option.getD_some] at h2
      omega

/-- Successive escrow ids are pairwise strictly increasing. -/
lemma escAllocs_pairwise (n : Nat) :
    ∀ s : Storage, (escAllocs n s).Pairwise (· < ·) := by
  induction n with
  | zero => intro s; simp [escAllocs]
  | succ n ih =>
    intro s
    simp only [escAllocs]
    refine List.Pairwise.cons (fun x hx => ?_) (ih _)
    have h1 := escAllocs_mem_gt n _ x hx
    simp only [get_next_escrow_id, Option.getD_some] at h1 ⊢
    omega

/-- Every id issued after state `s` exceeds the invoice counter of `s`. -/
lemma invAllocs_mem_gt (n : Nat) :
    ∀ (s : Storage), ∀ x ∈ invAllocs n s, s.inv_count.getD 0 < x := by
  induction n with
  | zero => intro s x hx; simp [invAllocs] at hx
  | succ n ih =>
    intro s x hx
    simp only [invAllocs, List.mem_cons] at hx
    rcases hx with h | h
    · simp only [get_next_invoice_id] at h; omega
    · have h2 := ih _ x h
      simp only [get_next_invoice_id, Option.getD_some] at h2
      omega

/-- Successive invoice ids are pairwise strictly increasing. -/
lemma invAllocs_pairwise (n : Nat) :
    ∀ s : Storage, (invAllocs n s).Pairwise (· < ·) := by
  induction n with
  | zero => intro s; simp [invAllocs]
  | succ n ih =>
    intro s
    simp only [invAllocs]
    refine List.Pairwise.cons (fun x hx => ?_) (ih _)
    have h1 := invAllocs_mem_gt n _ x hx
    simp only [get_next_invoice_id, Option.getD_some] at h1 ⊢
    omega

/-- Claim C8: each per-kind allocator reads its counter (default 0 when
absent), increments it by 1, persists the new value and returns it; over any
sequence of successive allocations for one kind the returned identifiers are
pairwise strictly increasing (hence never repeat) and never 0. -/
theorem allocator_spec :
    (∀ s : Storage,
      (get_next_transaction_id s).1 = s.tx_count.getD 0 + 1 ∧
      (get_next_transaction_id s).2
        = { s with tx_count := some (s.tx_count.getD 0 + 1) } ∧
      (get_next_transaction_id s).1 ≠ 0) ∧
    (∀ s : Storage,
      (get_next_escrow_id s).1 = s.esc_count.getD 0 + 1 ∧
      (get_next_escrow_id s).2
        = { s with esc_count := some (s.esc_count.getD 0 + 1) } ∧
      (get_next_escrow_id s).1 ≠ 0) ∧
    (∀ s : Storage,
      (get_next_invoice_id s).1 = s.inv_count.getD 0 + 1 ∧
      (get_next_invoice_id s).2
        = { s with inv_count := some (s.inv_count.getD 0 + 1) } ∧
      (get_next_invoice_id s).1 ≠ 0) ∧
    (∀ (n : Nat) (s : Storage), (txAllocs n s).Pairwise (· < ·) ∧
      ∀ x ∈ txAllocs n s, x ≠ 0) ∧
    (∀ (n : Nat) (s : Storage), (escAllocs n s).Pairwise (· < ·) ∧
      ∀ x ∈ escAllocs n s, x ≠ 0) ∧
    (∀ (n : Nat) (s : Storage), (invAllocs n s).Pairwise (· < ·) ∧
      ∀ x ∈ invAllocs n s, x ≠ 0) := by
  refine ⟨fun s => ⟨rfl, rfl, by simp [get_next_transaction_id]⟩,
    fun s => ⟨rfl, rfl, by simp [get_next_escrow_id]⟩,
    fun s => ⟨rfl, rfl, by simp [get_next_invoice_id]⟩,
    fun n s => ⟨txAllocs_pairwise n s,
      fun x hx => by have := txAllocs_mem_gt n s x hx; omega⟩,
    fun n s => ⟨escAllocs_pairwise n s,
      fun x hx => by have := escAllocs_mem_gt n s x hx; omega⟩,
    fun n s => ⟨invAllocs_pairwise n s,
      fun x hx => by have := invAllocs_mem_gt n s x hx; omega⟩⟩

/-- Witness for C8: three successive transaction allocations from a fresh
contract return 1, 2, 3. -/
theorem allocator_spec_witness :
    (get_next_transaction_id initialStorage).1
      = initialStorage.tx_count.getD 0 + 1 ∧
    (2 : Nat) ≠ 0 :=
  ⟨(allocator_spec.1 initialStorage).1,
   (allocator_spec.2.2.2.1 3 initialStorage).2 2 (by decide)⟩

/-- `execute_transaction` never writes escrows, the escrow counter or
invoices. -/
lemma execute_transaction_untouched (now : Nat) (s : Storage) (a b : Address)
    (amt : Int) (md : String) :
    (execute_transaction now s a b amt md).2.escrows = s.escrows ∧
    (execute_transaction now s a b amt md).2.esc_count = s.esc_count ∧
    (execute_transaction now s a b amt md).2.invoices = s.invoices := by
  by_cases hr : s.reentry = true <;>
    simp only [execute_transaction, check_reentrancy, hr, validate_address,
      validate_amount, validate_balance, get_next_transaction_id] <;>
    split_ifs <;> simp [set_transaction, clear_reentrancy]

/-- `execute_p2p_transaction` never writes escrows, the escrow counter or
invoices. -/
lemma execute_p2p_untouched (now : Nat) (s : Storage) (a b : Address)
    (amt : Int) (md : String) :
    (execute_p2p_transaction now s a b amt md).2.escrows = s.escrows ∧
    (execute_p2p_transaction now s a b amt md).2.esc_count = s.esc_count ∧
    (execute_p2p_transaction now s a b amt md).2.invoices = s.invoices := by
  by_cases hr : s.reentry = true <;>
    simp only [execute_p2p_transaction, check_reentrancy, hr, validate_address,
      validate_amount, validate_balance, get_next_transaction_id] <;>
    split_ifs <;> simp [set_transaction, clear_reentrancy]

/-- `create_invoice` never writes escrows or the escrow counter. -/
lemma create_invoice_escrows_untouched (now : Nat) (s : Storage) (a b : Address)
    (amt : Int) (d : String) (t : Nat) :
    (create_invoice now s a b amt d t).2.escrows = s.escrows ∧
    (create_invoice now s a b amt d t).2.esc_count = s.esc_count := by
  by_cases hr : s.reentry = true <;>
    simp only [create_invoice, check_reentrancy, hr, validate_address,
      validate_amount, get_next_invoice_id] <;>
    split_ifs <;> simp [set_invoice, clear_reentrancy]

/-- `approve_invoice` never writes escrows or the escrow counter. -/
lemma approve_invoice_escrows_untouched (now : Nat) (s : Storage) (j : Nat)
    (c : Address) :
    (approve_invoice now s j c).2.escrows = s.escrows ∧
    (approve_invoice now s j c).2.esc_count = s.esc_count := by
  by_cases hr : s.reentry = true <;> cases hj : s.invoices j <;>
    simp [approve_invoice, check_reentrancy, hr, validate_signature, hj,
      set_invoice, clear_reentrancy] <;>
    (try split_ifs) <;> simp

/-- `execute_invoice` never writes escrows or the escrow counter. -/
lemma execute_invoice_escrows_untouched (now : Nat) (s : Storage) (j : Nat) :
    (execute_invoice now s j).2.escrows = s.escrows ∧
    (execute_invoice now s j).2.esc_count = s.esc_count := by
  by_cases hr : s.reentry = true <;> cases hj : s.invoices j <;>
    simp [execute_invoice, check_reentrancy, hr, validate_balance, hj,
      set_invoice, clear_reentrancy] <;>
    (try split_ifs) <;> simp

/-- `reject_invoice` never writes escrows or the escrow counter. -/
lemma reject_invoice_escrows_untouched (now : Nat) (s : Storage) (j : Nat)
    (c : Address) (r : String) :
    (reject_invoice now s j c r).2.escrows = s.escrows ∧
    (reject_invoice now s j c r).2.esc_count = s.esc_count := by
  by_cases hr : s.reentry = true <;> cases hj : s.invoices j <;>
    simp [reject_invoice, check_reentrancy, hr, validate_signature, hj,
      set_invoice, clear_reentrancy] <;>
    (try split_ifs) <;> simp

/-- `mark_invoice_sent` never writes escrows or the escrow counter. -/
lemma mark_invoice_sent_escrows_untouched (s : Storage) (j : Nat) (c : Address) :
    (mark_invoice_sent s j c).2.escrows = s.escrows ∧
    (mark_invoice_sent s j c).2.esc_count = s.esc_count := by
  cases hj : s.invoices j <;>
    simp [mark_invoice_sent, hj, set_invoice] <;>
    (try split_ifs) <;> simp

/-- `check_invoice_expiration` never writes escrows or the escrow counter. -/
lemma check_invoice_expiration_escrows_untouched (now : Nat) (s : Storage)
    (j : Nat) :
    (check_invoice_expiration now s j).2.escrows = s.escrows ∧
    (check_invoice_expiration now s j).2.esc_count = s.esc_count := by
  cases hj : s.invoices j <;>
    simp [check_invoice_expiration, hj, set_invoice] <;>
    (try split_ifs) <;> simp

/-- `create_escrow` never writes invoices. -/
lemma create_escrow_invoices_untouched (now : Nat) (s : Storage)
    (a b : Address) (amt : Int) (cs : List Condition) (t : Nat) :
    (create_escrow now s a b amt cs t).2.invoices = s.invoices := by
  by_cases hr : s.reentry = true <;>
    simp only [create_escrow, check_reentrancy, hr, validate_address,
      validate_amount, validate_balance, get_next_escrow_id] <;>
    split_ifs <;> simp [set_escrow, clear_reentrancy]

/-- `release_escrow` never writes invoices. -/
lemma release_escrow_invoices_untouched (now : Nat) (s : Storage) (j : Nat) :
    (release_escrow now s j).2.invoices = s.invoices := by
  by_cases hr : s.reentry = true <;> cases hj : s.escrows j <;>
    simp [release_escrow, check_reentrancy, hr, hj, check_escrow_conditions,
      check_conditions_loop_true, set_escrow, clear_reentrancy] <;>
    (try split_ifs) <;> simp

/-- `refund_escrow` never writes invoices. -/
lemma refund_escrow_invoices_untouched (now : Nat) (s : Storage) (j : Nat) :
    (refund_escrow now s j).2.invoices = s.invoices := by
  by_cases hr : s.reentry = true <;> cases hj : s.escrows j <;>
    simp [refund_escrow, check_reentrancy, hr, hj, set_escrow,
      clear_reentrancy] <;>
    (try split_ifs) <;> simp

/-- `process_escrow` never writes invoices. -/
lemma process_escrow_invoices_untouched (now : Nat) (s : Storage) (j : Nat) :
    (process_escrow now s j).2.invoices = s.invoices := by
  cases hj : s.escrows j <;>
    simp [process_escrow, hj, check_escrow_conditions,
      check_conditions_loop_true] <;>
    (try split_ifs) <;>
    simp [release_escrow_invoices_untouched, refund_escrow_invoices_untouched]

/-- `create_escrow` writes only the id above the current counter, so an
escrow stored at an id at or below the counter survives, and the counter
never decreases. -/
lemma create_escrow_preserves_low (now : Nat) (s : Storage) (a b : Address)
    (amt : Int) (cs : List Condition) (t : Nat) (e : Nat)
    (hctr : e ≤ s.esc_count.getD 0) :
    (create_escrow now s a b amt cs t).2.escrows e = s.escrows e ∧
    e ≤ (create_escrow now s a b amt cs t).2.esc_count.getD 0 := by
  have hne : ¬ e = s.esc_count.getD 0 + 1 := by omega
  by_cases hr : s.reentry = true <;>
    simp [create_escrow, check_reentrancy, hr, validate_address,
      validate_amount, validate_balance, get_next_escrow_id, set_escrow,
      clear_reentrancy, hne] <;>
    (try split_ifs) <;> (try simp [hne]) <;> omega

/-- `release_escrow` leaves a stored non-active escrow record untouched
(whatever id it is called on) and never changes the escrow counter. -/
lemma release_escrow_preserves_terminal (now : Nat) (s : Storage) (j e : Nat)
    (esc : EscrowContract) (hstore : s.escrows e = some esc)
    (hne : esc.status ≠ .Active) :
    (release_escrow now s j).2.escrows e = some esc ∧
    (release_escrow now s j).2.esc_count = s.esc_count := by
  by_cases hej : e = j
  · subst hej
    by_cases hr : s.reentry = true
    · simp [release_escrow, check_reentrancy, hr, hstore]
    · simp [release_escrow, check_reentrancy, hr, hstore, hne]
  · by_cases hr : s.reentry = true
    · simp [release_escrow, check_reentrancy, hr, hstore]
    · cases hj : s.escrows j with
      | none => simp [release_escrow, check_reentrancy, hr, hj, hstore]
      | some escj =>
        simp [release_escrow, check_reentrancy, hr, hj, hstore,
          check_escrow_conditions, check_conditions_loop_true, set_escrow,
          clear_reentrancy] <;>
        (try split_ifs) <;> simp [hstore, hej]

/-- `refund_escrow` leaves a stored non-active escrow record untouched and
never changes the escrow counter. -/
lemma refund_escrow_preserves_terminal (now : Nat) (s : Storage) (j e : Nat)
    (esc : EscrowContract) (hstore : s.escrows e = some esc)
    (hne : esc.status ≠ .Active) :
    (refund_escrow now s j).2.escrows e = some esc ∧
    (refund_escrow now s j).2.esc_count = s.esc_count := by
  by_cases hej : e = j
  · subst hej
    by_cases hr : s.reentry = true
    · simp [refund_escrow, check_reentrancy, hr, hstore]
    · simp [refund_escrow, check_reentrancy, hr, hstore, hne]
  · by_cases hr : s.reentry = true
    · simp [refund_escrow, check_reentrancy, hr, hstore]
    · cases hj : s.escrows j with
      | none => simp [refund_escrow, check_reentrancy, hr, hj, hstore]
      | some escj =>
        simp [refund_escrow, check_reentrancy, hr, hj, hstore, set_escrow,
          clear_reentrancy] <;>
        (try split_ifs) <;> simp [hstore, hej]

/-- `process_escrow` leaves a stored non-active escrow record untouched and
never changes the escrow counter. -/
lemma process_escrow_preserves_terminal (now : Nat) (s : Storage) (j e : Nat)
    (esc : EscrowContract) (hstore : s.escrows e = some esc)
    (hne : esc.status ≠ .Active) :
    (process_escrow now s j).2.escrows e = some esc ∧
    (process_escrow now s j).2.esc_count = s.esc_count := by
  cases hj : s.escrows j with
  | none => simp [process_escrow, hj, hstore]
  | some escj =>
    by_cases hs : escj.status = EscrowStatus.Active
    · by_cases ht : escj.expires_at < now
      · simp [process_escrow, hj, hs, ht]
        exact refund_escrow_preserves_terminal now s j e esc hstore hne
      · simp [process_escrow, hj, hs, ht, check_escrow_conditions,
          check_conditions_loop_true, Nat.not_lt.mp ht]
        exact release_escrow_preserves_terminal now s j e esc hstore hne
    · simp [process_escrow, hj, hs, hstore]

/-- Transport of the invoice invariant along equal invoice maps. -/
lemma all_invoices_inv_of_eq {s t : Storage} (h : t.invoices = s.invoices)
    (hall : all_invoices_inv s) : all_invoices_inv t :=
  fun i inv hi => hall i inv (h ▸ hi)

/-- `create_invoice` preserves the invoice timestamp invariant: the only
record it adds is a `Draft` with `approved_at = none`. -/
lemma create_invoice_inv_pres (now : Nat) (s : Storage) (a b : Address)
    (amt : Int) (d : String) (t : Nat) (hall : all_invoices_inv s) :
    all_invoices_inv (create_invoice now s a b amt d t).2 := by
  intro i inv
  by_cases hr : s.reentry = true
  · simp [create_invoice, check_reentrancy, hr]
    exact hall i inv
  · by_cases h1 : amt ≤ 0
    · simp [create_invoice, check_reentrancy, hr, validate_address,
        validate_amount, h1]
      exact hall i inv
    · by_cases h2 : i128_MAX / 2 < amt
      · simp [create_invoice, check_reentrancy, hr, validate_address,
          validate_amount, h1, h2]
        exact hall i inv
      · by_cases h3 : t ≤ now
        · simp [create_invoice, check_reentrancy, hr, validate_address,
            validate_amount, h1, h2, h3]
          exact hall i inv
        · by_cases hid : i = s.inv_count.getD 0 + 1
          · simp [create_invoice, check_reentrancy, hr, validate_address,
              validate_amount, h1, h2, h3, get_next_invoice_id, set_invoice,
              hid]
            rintro rfl
            simp [invoice_timestamp_inv]
          · simp [create_invoice, check_reentrancy, hr, validate_address,
              validate_amount, h1, h2, h3, get_next_invoice_id, set_invoice,
              hid]
            exact hall i inv

/-- `approve_invoice` preserves the invoice timestamp invariant: it writes
either an `Expired` record (invariant vacuous) or an `Approved` record with
`approved_at = some now`. -/
lemma approve_invoice_inv_pres (now : Nat) (s : Storage) (j : Nat)
    (c : Address) (hall : all_invoices_inv s) :
    all_invoices_inv (approve_invoice now s j c).2 := by
  intro i inv
  by_cases hr : s.reentry = true
  · simp [approve_invoice, check_reentrancy, hr]
    exact hall i inv
  · cases hj : s.invoices j with
    | none =>
      simp [approve_invoice, check_reentrancy, hr, hj]
      exact hall i inv
    | some invj =>
      by_cases hc : invj.client = c
      · by_cases hstat : invj.status ≠ .Sent ∧ invj.status ≠ .Draft
        · simp [approve_invoice, check_reentrancy, hr, hj, validate_signature,
            hc, hstat]
          exact hall i inv
        · by_cases hd : invj.due_date < now
          · by_cases hid : i = j
            · simp [approve_invoice, check_reentrancy, hr, hj,
                validate_signature, hc, hstat, hd, set_invoice, hid]
              rintro rfl
              simp [invoice_timestamp_inv]
            · simp [approve_invoice, check_reentrancy, hr, hj,
                validate_signature, hc, hstat, hd, set_invoice, hid]
              exact hall i inv
          · by_cases hid : i = j
            · simp [approve_invoice, check_reentrancy, hr, hj,
                validate_signature, hc, hstat, hd, set_invoice, hid]
              rintro rfl
              simp [invoice_timestamp_inv]
            · simp [approve_invoice, check_reentrancy, hr, hj,
                validate_signature, hc, hstat, hd, set_invoice, hid]
              exact hall i inv
      · simp [approve_invoice, check_reentrancy, hr, hj, validate_signature,
          hc]
        exact hall i inv

/-- `execute_invoice` preserves the invoice timestamp invariant: expiring
writes `Expired` (vacuous), executing keeps the `approved_at` that the
invariant guarantees present on the `Approved` source record. -/
lemma execute_invoice_inv_pres (now : Nat) (s : Storage) (j : Nat)
    (hall : all_invoices_inv s) :
    all_invoices_inv (execute_invoice now s j).2 := by
  intro i inv
  by_cases hr : s.reentry = true
  · simp [execute_invoice, check_reentrancy, hr]
    exact hall i inv
  · cases hj : s.invoices j with
    | none =>
      simp [execute_invoice, check_reentrancy, hr, hj]
      exact hall i inv
    | some invj =>
      by_cases hstat : invj.status = InvoiceStatus.Approved
      · by_cases hd : invj.due_date < now
        · by_cases hid : i = j
          · simp [execute_invoice, check_reentrancy, hr, hj, hstat, hd,
              set_invoice, hid]
            rintro rfl
            simp [invoice_timestamp_inv]
          · simp [execute_invoice, check_reentrancy, hr, hj, hstat, hd,
              set_invoice, hid]
            exact hall i inv
        · by_cases hamt : invj.amount ≤ 0
          · simp [execute_invoice, check_reentrancy, hr, hj, hstat, hd,
              validate_balance, hamt]
            exact hall i inv
          · have hap : invj.approved_at ≠ none :=
              (hall j invj hj).1 (Or.inl hstat)
            by_cases hid : i = j
            · simp [execute_invoice, check_reentrancy, hr, hj, hstat, hd,
                validate_balance, hamt, set_invoice, hid]
              rintro rfl
              refine ⟨fun _ => hap, fun hcon => ?_⟩
              simp at hcon
            · simp [execute_invoice, check_reentrancy, hr, hj, hstat, hd,
                validate_balance, hamt, set_invoice, hid]
              exact hall i inv
      · simp [execute_invoice, check_reentrancy, hr, hj, hstat]
        exact hall i inv

/-- `reject_invoice` preserves the invoice timestamp invariant: it writes
`Rejected` only over a `Draft` or `Sent` record, whose `approved_at` the
invariant guarantees absent. -/
lemma reject_invoice_inv_pres (now : Nat) (s : Storage) (j : Nat)
    (c : Address) (r : String) (hall : all_invoices_inv s) :
    all_invoices_inv (reject_invoice now s j c r).2 := by
  intro i inv
  by_cases hr : s.reentry = true
  · simp [reject_invoice, check_reentrancy, hr]
    exact hall i inv
  · cases hj : s.invoices j with
    | none =>
      simp [reject_invoice, check_reentrancy, hr, hj]
      exact hall i inv
    | some invj =>
      by_cases hc : invj.client = c
      · by_cases hstat : invj.status ≠ .Sent ∧ invj.status ≠ .Draft
        · simp [reject_invoice, check_reentrancy, hr, hj, validate_signature,
            hc, hstat]
          exact hall i inv
        · have hsd : invj.status = .Sent ∨ invj.status = .Draft := by
            rcases not_and_or.mp hstat with h | h
            · exact Or.inl (not_not.mp h)
            · exact Or.inr (not_not.mp h)
          have hap : invj.approved_at = none := by
            refine (hall j invj hj).2 ?_
            rcases hsd with h | h
            · exact Or.inr (Or.inl h)
            · exact Or.inl h
          by_cases hid : i = j
          · simp [reject_invoice, check_reentrancy, hr, hj,
              validate_signature, hc, hstat, set_invoice, hid]
            rintro rfl
            refine ⟨fun hcon => ?_, fun _ => hap⟩
            simp at hcon
          · simp [reject_invoice, check_reentrancy, hr, hj,
              validate_signature, hc, hstat, set_invoice, hid]
            exact hall i inv
      · simp [reject_invoice, check_reentrancy, hr, hj, validate_signature,
          hc]
        exact hall i inv

/-- `mark_invoice_sent` preserves the invoice timestamp invariant: it writes
`Sent` only over a `Draft` record, whose `approved_at` is absent. -/
lemma mark_invoice_sent_inv_pres (s : Storage) (j : Nat) (c : Address)
    (hall : all_invoices_inv s) :
    all_invoices_inv (mark_invoice_sent s j c).2 := by
  intro i inv
  cases hj : s.invoices j with
  | none =>
    simp [mark_invoice_sent, hj]
    exact hall i inv
  | some invj =>
    by_cases hcr : invj.creator = c
    · by_cases hstat : invj.status = InvoiceStatus.Draft
      · have hap : invj.approved_at = none :=
          (hall j invj hj).2 (Or.inl hstat)
        by_cases hid : i = j
        · simp [mark_invoice_sent, hj, hcr, hstat, set_invoice, hid]
          rintro rfl
          refine ⟨fun hcon => ?_, fun _ => hap⟩
          simp at hcon
        · simp [mark_invoice_sent, hj, hcr, hstat, set_invoice, hid]
          exact hall i inv
      · simp [mark_invoice_sent, hj, hcr, hstat]
        exact hall i inv
    · simp [mark_invoice_sent, hj, hcr]
      exact hall i inv

/-- `check_invoice_expiration` preserves the invoice timestamp invariant:
its only write is an `Expired` record, on which the invariant is vacuous. -/
lemma check_invoice_expiration_inv_pres (now : Nat) (s : Storage) (j : Nat)
    (hall : all_invoices_inv s) :
    all_invoices_inv (check_invoice_expiration now s j).2 := by
  intro i inv
  cases hj : s.invoices j with
  | none =>
    simp [check_invoice_expiration, hj]
    exact hall i inv
  | some invj =>
    by_cases hstat : invj.status ≠ .Sent ∧ invj.status ≠ .Approved
    · simp [check_invoice_expiration, hj, hstat]
      exact hall i inv
    · by_cases hd : invj.due_date < now
      · by_cases hid : i = j
        · simp [check_invoice_expiration, hj, hstat, hd, set_invoice, hid]
          rintro rfl
          simp [invoice_timestamp_inv]
        · simp [check_invoice_expiration, hj, hstat, hd, set_invoice, hid]
          exact hall i inv
      · simp [check_invoice_expiration, hj, hstat, hd]
        exact hall i inv

/-- Every single public operation preserves the invoice timestamp
invariant. -/
lemma applyOp_inv_pres (now : Nat) (op : Op) (s : Storage)
    (hall : all_invoices_inv s) : all_invoices_inv (applyOp now op s) := by
  cases op with
  | opExecuteTransaction a b amt md =>
    exact all_invoices_inv_of_eq
      (execute_transaction_untouched now s a b amt md).2.2 hall
  | opExecuteP2P a b amt md =>
    exact all_invoices_inv_of_eq (execute_p2p_untouched now s a b amt md).2.2 hall
  | opCreateEscrow a b amt cs t =>
    exact all_invoices_inv_of_eq
      (create_escrow_invoices_untouched now s a b amt cs t) hall
  | opReleaseEscrow e =>
    exact all_invoices_inv_of_eq (release_escrow_invoices_untouched now s e) hall
  | opRefundEscrow e =>
    exact all_invoices_inv_of_eq (refund_escrow_invoices_untouched now s e) hall
  | opProcessEscrow e =>
    exact all_invoices_inv_of_eq (process_escrow_invoices_untouched now s e) hall
  | opCreateInvoice a b amt d t => exact create_invoice_inv_pres now s a b amt d t hall
  | opApproveInvoice i c => exact approve_invoice_inv_pres now s i c hall
  | opExecuteInvoice i => exact execute_invoice_inv_pres now s i hall
  | opRejectInvoice i c r => exact reject_invoice_inv_pres now s i c r hall
  | opMarkInvoiceSent i c => exact mark_invoice_sent_inv_pres s i c hall
  | opCheckInvoiceExpiration i => exact check_invoice_expiration_inv_pres now s i hall
  | opInitAdmin a => exact all_invoices_inv_of_eq rfl hall

/-- Every sequence of public operations preserves the invoice timestamp
invariant. -/
lemma applyOps_inv_pres : ∀ (ops : List (Nat × Op)) (s : Storage),
    all_invoices_inv s → all_invoices_inv (applyOps ops s) := by
  intro ops
  induction ops with
  | nil => intro s h; exact h
  | cons p rest ih =>
    intro s h
    obtain ⟨now, op⟩ := p
    exact ih _ (applyOp_inv_pres now op s h)

/-- Every single public operation leaves a stored non-active escrow intact
and keeps the escrow counter at or above its id. -/
lemma applyOp_escrow_frozen (now : Nat) (op : Op) (s : Storage) (e : Nat)
    (esc : EscrowContract) (hstore : s.escrows e = some esc)
    (hne : esc.status ≠ .Active) (hctr : e ≤ s.esc_count.getD 0) :
    (applyOp now op s).escrows e = some esc ∧
    e ≤ (applyOp now op s).esc_count.getD 0 := by
  cases op with
  | opExecuteTransaction a b amt md =>
    have h := execute_transaction_untouched now s a b amt md
    exact ⟨by rw [applyOp, h.1]; exact hstore, by rw [applyOp, h.2.1]; exact hctr⟩
  | opExecuteP2P a b amt md =>
    have h := execute_p2p_untouched now s a b amt md
    exact ⟨by rw [applyOp, h.1]; exact hstore, by rw [applyOp, h.2.1]; exact hctr⟩
  | opCreateEscrow a b amt cs t =>
    have h := create_escrow_preserves_low now s a b amt cs t e hctr
    exact ⟨h.1.trans hstore, h.2⟩
  | opReleaseEscrow j =>
    have h := release_escrow_preserves_terminal now s j e esc hstore hne
    exact ⟨h.1, by rw [applyOp, h.2]; exact hctr⟩
  | opRefundEscrow j =>
    have h := refund_escrow_preserves_terminal now s j e esc hstore hne
    exact ⟨h.1, by rw [applyOp, h.2]; exact hctr⟩
  | opProcessEscrow j =>
    have h := process_escrow_preserves_terminal now s j e esc hstore hne
    exact ⟨h.1, by rw [applyOp, h.2]; exact hctr⟩
  | opCreateInvoice a b amt d t =>
    have h := create_invoice_escrows_untouched now s a b amt d t
    exact ⟨by rw [applyOp, h.1]; exact hstore, by rw [applyOp, h.2]; exact hctr⟩
  | opApproveInvoice i c =>
    have h := approve_invoice_escrows_untouched now s i c
    exact ⟨by rw [applyOp, h.1]; exact hstore, by rw [applyOp, h.2]; exact hctr⟩
  | opExecuteInvoice i =>
    have h := execute_invoice_escrows_untouched now s i
    exact ⟨by rw [applyOp, h.1]; exact hstore, by rw [applyOp, h.2]; exact hctr⟩
  | opRejectInvoice i c r =>
    have h := reject_invoice_escrows_untouched now s i c r
    exact ⟨by rw [applyOp, h.1]; exact hstore, by rw [applyOp, h.2]; exact hctr⟩
  | opMarkInvoiceSent i c =>
    have h := mark_invoice_sent_escrows_untouched s i c
    exact ⟨by rw [applyOp, h.1]; exact hstore, by rw [applyOp, h.2]; exact hctr⟩
  | opCheckInvoiceExpiration i =>
    have h := check_invoice_expiration_escrows_untouched now s i
    exact ⟨by rw [applyOp, h.1]; exact hstore, by rw [applyOp, h.2]; exact hctr⟩
  | opInitAdmin a => exact ⟨hstore, hctr⟩

/-- Every sequence of public operations leaves a stored non-active escrow
intact. -/
lemma applyOps_escrow_frozen : ∀ (ops : List (Nat × Op)) (s : Storage)
    (e : Nat) (esc : EscrowContract), s.escrows e = some esc →
    esc.status ≠ .Active → e ≤ s.esc_count.getD 0 →
    (applyOps ops s).escrows e = some esc := by
  intro ops
  induction ops with
  | nil => intro s e esc h _ _; exact h
  | cons p rest ih =>
    intro s e esc h hne hctr
    obtain ⟨now, op⟩ := p
    have h2 := applyOp_escrow_frozen now op s e esc h hne hctr
    exact ih _ e esc h2.1 hne h2.2

/-- Claim C3: a stored escrow whose status is `Released` or `Refunded` is
terminal — `release_escrow`, `refund_escrow` and `process_escrow` on its id
all fail with `EscrowNotFound` and leave the record unchanged, and no
sequence of public operations ever changes the record again (given the id
counter at or above the id, which holds for every id the contract itself
allocated). -/
theorem escrow_terminal_frozen (s : Storage) (e : Nat) (esc : EscrowContract)
    (hstore : s.escrows e = some esc)
    (hterm : esc.status = .Released ∨ esc.status = .Refunded)
    (hguard : s.reentry = false) (hctr : e ≤ s.esc_count.getD 0) :
    (∀ now, (release_escrow now s e).1 = .error .EscrowNotFound ∧
      (release_escrow now s e).2.escrows e = some esc) ∧
    (∀ now, (refund_escrow now s e).1 = .error .EscrowNotFound ∧
      (refund_escrow now s e).2.escrows e = some esc) ∧
    (∀ now, (process_escrow now s e).1 = .error .EscrowNotFound ∧
      (process_escrow now s e).2.escrows e = some esc) ∧
    (∀ ops : List (Nat × Op), (applyOps ops s).escrows e = some esc) := by
  have hne : esc.status ≠ .Active := by
    rcases hterm with h | h <;> simp [h]
  refine ⟨fun now => ?_, fun now => ?_, fun now => ?_,
    fun ops => applyOps_escrow_frozen ops s e esc hstore hne hctr⟩
  · simp [release_escrow, check_reentrancy, hguard, hstore, hne]
  · simp [refund_escrow, check_reentrancy, hguard, hstore, hne]
  · simp [process_escrow, hstore, hne]

/-- Witness for C3: the released escrow fixture `escReleased`. -/
theorem escrow_terminal_frozen_witness :
    (release_escrow 5 sReleased 1).1 = .error .EscrowNotFound ∧
    (refund_escrow 20 sReleased 1).1 = .error .EscrowNotFound ∧
    (applyOps [(20, .opProcessEscrow 1), (0, .opCreateEscrow 1 2 50 [] 9)]
      sReleased).escrows 1 = some escReleased :=
  ⟨((escrow_terminal_frozen sReleased 1 escReleased rfl (Or.inl rfl) rfl
      (by decide)).1 5).1,
   ((escrow_terminal_frozen sReleased 1 escReleased rfl (Or.inl rfl) rfl
      (by decide)).2.1 20).1,
   (escrow_terminal_frozen sReleased 1 escReleased rfl (Or.inl rfl) rfl
      (by decide)).2.2.2
     [(20, .opProcessEscrow 1), (0, .opCreateEscrow 1 2 50 [] 9)]⟩

/-- Counterexample for C6: on the reachable run create (due 10) → mark sent
→ approve at 5 → `check_invoice_expiration` at 20, the invoice ends
`Expired` while `approved_at` remains `some 5`, so `approved_at = Some` does
not imply status `Approved`/`Executed` as the claim states. -/
theorem invoice_expired_keeps_timestamp_cex :
    (applyOps [(0, .opCreateInvoice 1 2 100 "d" 10), (0, .opMarkInvoiceSent 1 1),
       (5, .opApproveInvoice 1 2), (20, .opCheckInvoiceExpiration 1)]
      initialStorage).invoices 1 = some invExpiredKept ∧
    invExpiredKept.status = .Expired ∧
    invExpiredKept.approved_at ≠ none := by
  refine ⟨by decide, rfl, by decide⟩

/-- Claim C6 (amended): for every invoice reachable by any operation
sequence from a state whose invoices all satisfy the discipline,
`approved_at` is `Some` whenever the status is `Approved` or `Executed` and
`None` whenever it is `Draft`, `Sent` or `Rejected`; an `Expired` invoice
may carry either (it keeps its timestamp when it expires out of
`Approved`). -/
theorem invoice_timestamp_inv_preserved (s : Storage)
    (hall : all_invoices_inv s) (ops : List (Nat × Op)) (i : Nat)
    (inv : Invoice) (hstore : (applyOps ops s).invoices i = some inv) :
    invoice_timestamp_inv inv :=
  applyOps_inv_pres ops s hall i inv hstore

/-- Witness for C6: the expired-with-timestamp invoice reached from a fresh
contract. -/
theorem invoice_timestamp_inv_preserved_witness :
    invoice_timestamp_inv invExpiredKept :=
  invoice_timestamp_inv_preserved initialStorage (fun _ _ h => nomatch h)
    [(0, .opCreateInvoice 1 2 100 "d" 10), (0, .opMarkInvoiceSent 1 1),
     (5, .opApproveInvoice 1 2), (20, .opCheckInvoiceExpiration 1)] 1
    invExpiredKept (by decide)

end StellarDApp
